import Mathlib

/-!
Verification of the Mundolel/Distribuidos traffic-system repository.

This file gives a shallow embedding, in Lean 4, of the parts of the
repository that the specification claims talk about:

* `common/constants.py` and `common/models.py`: congestion thresholds,
  `get_congestion_level`, and the `GPSEvent` dataclass with its
  `__post_init__` recomputation of the congestion level.
* `common/config_loader.py`: the `CityConfig` loader and the module-level
  `get_config` cache.
* `pc1/broker.py` (`run_broker_standard`): the single-threaded relay's
  poll loop, its per-iteration receive/forward step, its signal handler
  and its `try/except KeyboardInterrupt/finally` teardown.
* `pc1/broker_threaded.py` (`_subscriber_worker`, `_collector_worker`):
  the worker and collector loops of the multi-threaded relay, their
  `except zmq.ZMQError` handling and `finally` teardown, and the signal
  handler.

Python floats are embedded as rationals (every Python float value is a
rational number and the comparisons performed by the code are exact).
Blocking socket operations are embedded by making the sequence of poll
outcomes an explicit input of each loop; one list element corresponds to
one loop iteration, carrying the value of the shared `_running` flag as
observed at the top of that iteration together with what the bounded
`poll(timeout=1000)` call returned.  Frames received from different
subscriptions are tagged with the index of the subscription (a ghost
annotation recording provenance; the wire payload is the `String` part).
-/

/-! ## common/constants.py -/

/-- `CONGESTION_ALTA_MAX_SPEED = 10` (km/h). -/
def CONGESTION_ALTA_MAX_SPEED : ℚ := 10

/-- `CONGESTION_BAJA_MIN_SPEED = 40` (km/h). -/
def CONGESTION_BAJA_MIN_SPEED : ℚ := 40

/-- `CONGESTION_ALTA = "ALTA"`. -/
def CONGESTION_ALTA : String := "ALTA"

/-- `CONGESTION_NORMAL = "NORMAL"`. -/
def CONGESTION_NORMAL : String := "NORMAL"

/-- `CONGESTION_BAJA = "BAJA"`. -/
def CONGESTION_BAJA : String := "BAJA"

/-- `SENSOR_TYPE_GPS = "gps"`. -/
def SENSOR_TYPE_GPS : String := "gps"

/-! ## common/models.py -/

/-- `get_congestion_level(velocidad_promedio)` from `common/models.py`:
`if velocidad_promedio < CONGESTION_ALTA_MAX_SPEED: return CONGESTION_ALTA;
elif velocidad_promedio > CONGESTION_BAJA_MIN_SPEED: return CONGESTION_BAJA;
else: return CONGESTION_NORMAL`. -/
def get_congestion_level (velocidad_promedio : ℚ) : String :=
  if velocidad_promedio < CONGESTION_ALTA_MAX_SPEED then
    CONGESTION_ALTA
  else if velocidad_promedio > CONGESTION_BAJA_MIN_SPEED then
    CONGESTION_BAJA
  else
    CONGESTION_NORMAL

/-- The `GPSEvent` dataclass fields from `common/models.py`. -/
structure GPSEvent where
  sensor_id : String
  tipo_sensor : String
  interseccion : String
  nivel_congestion : String
  velocidad_promedio : ℚ
  timestamp : String
  deriving Repr, DecidableEq

/-- The `GPSEvent` dataclass constructor: the generated `__init__` stores all
six fields as supplied, then `__post_init__` runs
`self.nivel_congestion = get_congestion_level(self.velocidad_promedio)`,
overwriting whatever value was passed for `nivel_congestion`. -/
def GPSEvent.init (sensor_id tipo_sensor interseccion nivel_congestion : String)
    (velocidad_promedio : ℚ) (timestamp : String) : GPSEvent :=
  let ev : GPSEvent :=
    { sensor_id := sensor_id
      tipo_sensor := tipo_sensor
      interseccion := interseccion
      nivel_congestion := nivel_congestion
      velocidad_promedio := velocidad_promedio
      timestamp := timestamp }
  { ev with nivel_congestion := get_congestion_level ev.velocidad_promedio }

/-- A Python dict argument to `GPSEvent.from_dict`, restricted to the keys that
survive the `{k: v for k, v in data.items() if k in cls.__dataclass_fields__}`
filter; `none` means the key is absent. -/
structure GPSDict where
  sensor_id : Option String
  tipo_sensor : Option String
  interseccion : Option String
  nivel_congestion : Option String
  velocidad_promedio : Option ℚ
  timestamp : Option String

/-- `GPSEvent.from_dict(data)` = `cls(**filtered)`: each present key supplies
the corresponding constructor argument and each absent key falls back to the
dataclass default (`tipo_sensor = SENSOR_TYPE_GPS`, `interseccion = ""`,
`nivel_congestion = CONGESTION_NORMAL`, `velocidad_promedio = 0.0`,
`timestamp = now_iso()`, embedded as the extra argument `now`).  A missing
`sensor_id` makes the call raise `TypeError`, embedded as `none`. -/
def GPSEvent.from_dict (now : String) (data : GPSDict) : Option GPSEvent :=
  match data.sensor_id with
  | none => none
  | some sid =>
      some (GPSEvent.init sid
        (data.tipo_sensor.getD SENSOR_TYPE_GPS)
        (data.interseccion.getD "")
        (data.nivel_congestion.getD CONGESTION_NORMAL)
        (data.velocidad_promedio.getD 0)
        (data.timestamp.getD now))

/-! ## common/config_loader.py -/

/-- `CityConfig`: its only stored state is `self._config`, the document
parsed from the configuration file.  The document type is abstract (`α`)
because none of the claims inspects its contents. -/
structure CityConfig (α : Type) where
  config : α
  deriving DecidableEq

/-- `CityConfig.__init__(config_path)`: opens `config_path` and stores
`json.load(f)`.  The file system is embedded as a function `fs` from paths
to parsed documents. -/
def CityConfig.init {α : Type} (fs : String → α) (config_path : String) :
    CityConfig α :=
  { config := fs config_path }

/-- `get_config(config_path)` from `common/config_loader.py`, with the
module-level global `_config_instance` passed in and returned explicitly:
`if _config_instance is None: _config_instance = CityConfig(config_path);
return _config_instance`.  Returns the result together with the new value
of the global. -/
def get_config {α : Type} (fs : String → α)
    (config_instance : Option (CityConfig α)) (config_path : String) :
    CityConfig α × Option (CityConfig α) :=
  match config_instance with
  | none =>
      let c := CityConfig.init fs config_path
      (c, some c)
  | some c => (c, some c)

/-! ## Frames and topic extraction (pc1/broker.py, pc1/broker_threaded.py) -/

/-- A frame on the wire: the raw string message passed to `recv_string` /
`send_string`.  The relay never parses it beyond the logging-only topic
extraction below. -/
abbrev Frame := String

/-- `message.split(" ", 1)[0]`: the topic token logged by both brokers.
Used only for logging; it never feeds back into the forwarded frame. -/
def frameTopic (message : Frame) : String :=
  (message.splitOn " ").headD ""

/-! ## Forwarding steps as receive/send traces

For the byte-identity claim we record, for each of the three forwarding
sites, the sequence of frames returned by the receive call and the
sequence of frames passed to the send call, exactly as the code flows the
local variable `message` from one to the other. -/

/-- The observable effects of a forwarding loop body: frames returned by
its receive call, frames passed to its send call, the forwarded-message
counter, and the topic tokens it logged. -/
structure RelayTrace where
  received : List Frame
  forwarded : List Frame
  event_count : Nat
  logged_topics : List String
  deriving Repr, DecidableEq

/-- Body of the ready-subscription branch in `run_broker_standard`
(broker.py lines 105-117): `message = sub.recv_string();
publisher.send_string(message); event_count += 1;
topic = message.split(" ", 1)[0]` (logged). -/
def std_forward_step (t : RelayTrace) (message : Frame) : RelayTrace :=
  { received := t.received ++ [message]
    forwarded := t.forwarded ++ [message]
    event_count := t.event_count + 1
    logged_topics := t.logged_topics ++ [frameTopic message] }

/-- Body of the ready branch in `_subscriber_worker`
(broker_threaded.py lines 92-96): `message = sub.recv_string();
push.send_string(message); count += 1` (debug log carries only the count). -/
def worker_forward_step (t : RelayTrace) (message : Frame) : RelayTrace :=
  { received := t.received ++ [message]
    forwarded := t.forwarded ++ [message]
    event_count := t.event_count + 1
    logged_topics := t.logged_topics }

/-- Body of the ready branch in `_collector_worker`
(broker_threaded.py lines 129-139): `message = pull.recv_string();
pub.send_string(message); event_count += 1;
topic = message.split(" ", 1)[0]` (logged). -/
def collector_forward_step (t : RelayTrace) (message : Frame) : RelayTrace :=
  { received := t.received ++ [message]
    forwarded := t.forwarded ++ [message]
    event_count := t.event_count + 1
    logged_topics := t.logged_topics ++ [frameTopic message] }

/-- Run `std_forward_step` over a sequence of received frames. -/
def std_forward_run (t : RelayTrace) : List Frame → RelayTrace
  | [] => t
  | m :: ms => std_forward_run (std_forward_step t m) ms

/-- Run `worker_forward_step` over a sequence of received frames. -/
def worker_forward_run (t : RelayTrace) : List Frame → RelayTrace
  | [] => t
  | m :: ms => worker_forward_run (worker_forward_step t m) ms

/-- Run `collector_forward_step` over a sequence of received frames. -/
def collector_forward_run (t : RelayTrace) : List Frame → RelayTrace
  | [] => t
  | m :: ms => collector_forward_run (collector_forward_step t m) ms

/-- The empty trace (state at loop entry). -/
def RelayTrace.empty : RelayTrace :=
  { received := [], forwarded := [], event_count := 0, logged_topics := [] }

/-! ## The single-threaded poll loop (run_broker_standard) -/

/-- One poll-loop iteration of `run_broker_standard` (broker.py lines
102-117): `socks = dict(poller.poll(timeout=1000)); for sub in subscribers:
if sub in socks and socks[sub] == zmq.POLLIN: message = sub.recv_string();
publisher.send_string(message); ...`.  `pending` holds, per subscription
(listed in subscriber order), the frames queued on that SUB socket; a
subscription is reported ready exactly when its queue is nonempty.  The
iteration receives ONE frame from each ready subscription (a single
`recv_string` per ready socket) and forwards it.  Returns the new pending
queues and the frames forwarded this iteration, tagged with the index
(counted from `base`) of the subscription they came from. -/
def std_iteration (base : Nat) :
    List (List Frame) → List (List Frame) × List (Nat × Frame)
  | [] => ([], [])
  | q :: qs =>
      let rest := std_iteration (base + 1) qs
      match q with
      | [] => ([] :: rest.1, rest.2)
      | message :: laterFrames =>
          (laterFrames :: rest.1, (base, message) :: rest.2)

/-- The `while _running:` loop of `run_broker_standard`.  The k-th element
of `flags` is the value of the module global `_running` observed at the
top of the k-th iteration; a `false` makes the loop exit before polling
again.  Returns all frames forwarded downstream, in send order, tagged
with their subscription index. -/
def run_broker_standard_loop :
    List Bool → List (List Frame) → List (Nat × Frame)
  | [], _ => []
  | false :: _, _ => []
  | true :: flags, pending =>
      let step := std_iteration 0 pending
      step.2 ++ run_broker_standard_loop flags step.1

/-- Number of `poller.poll(timeout=1000)` calls the loop performs for a
given schedule of `_running` observations. -/
def run_broker_standard_polls : List Bool → Nat
  | [] => 0
  | false :: _ => 0
  | true :: flags => 1 + run_broker_standard_polls flags

/-- The timeout argument of `poller.poll(timeout=1000)` in
`run_broker_standard` (broker.py line 102), in milliseconds. -/
def STD_POLL_TIMEOUT_MS : Nat := 1000

/-! ## The multi-threaded worker and collector loops -/

/-- The `while _running:` loop of `_subscriber_worker` (broker_threaded.py
lines 90-96).  Each tick carries the `_running` value observed at the top
of the iteration and the outcome of `sub.poll(timeout=1000)`: `none` if
the poll timed out with nothing ready, `some m` if a frame was ready and
`recv_string` returned `m`.  Returns the frames pushed to the collector
queue, in push order. -/
def subscriber_worker_loop : List (Bool × Option Frame) → List Frame
  | [] => []
  | (false, _) :: _ => []
  | (true, none) :: ticks => subscriber_worker_loop ticks
  | (true, some message) :: ticks => message :: subscriber_worker_loop ticks

/-- The `while _running:` loop of `_collector_worker` (broker_threaded.py
lines 128-139).  Each tick carries the observed `_running` value and the
outcome of `pull.poll(timeout=1000)` / `recv_string`; dequeued frames are
tagged with the index of the worker that pushed them (ghost provenance).
Returns the frames published downstream, in publish order. -/
def collector_loop : List (Bool × Option (Nat × Frame)) → List (Nat × Frame)
  | [] => []
  | (false, _) :: _ => []
  | (true, none) :: ticks => collector_loop ticks
  | (true, some message) :: ticks => message :: collector_loop ticks

/-- The timeout argument of `sub.poll(timeout=1000)` in
`_subscriber_worker` (broker_threaded.py line 92), in milliseconds. -/
def WORKER_POLL_TIMEOUT_MS : Nat := 1000

/-- The timeout argument of `pull.poll(timeout=1000)` in
`_collector_worker` (broker_threaded.py line 129), in milliseconds. -/
def COLLECTOR_POLL_TIMEOUT_MS : Nat := 1000

/-! ## Error handling and teardown (try/except/finally structure) -/

/-- The exceptions relevant to the relay loops: `zmq.ZMQError` (transport
error) and `KeyboardInterrupt`. -/
inductive PyExn
  | zmqError
  | keyboardInterrupt
  deriving Repr, DecidableEq

/-- The observable outcome of leaving one of the relay loop functions:
whether the `finally` block closed the function's sockets, whether the
exception (if any) was caught inside the function (so the function
returns normally) or escaped it, and whether it was logged at error
level. -/
structure LoopExit where
  socketsClosed : Bool
  suppressed : Bool
  loggedAsError : Bool
  deriving Repr, DecidableEq

/-- How `run_broker_standard` (broker.py lines 99-125) leaves its
`try/except KeyboardInterrupt/finally`: `KeyboardInterrupt` is caught and
logged at info level; any other exception — in particular `zmq.ZMQError`
— is not caught and escapes the function; the `finally` block closes all
SUB sockets and the PUB socket in every case.  `none` is a normal loop
exit. -/
def run_broker_standard_exit (raised : Option PyExn) : LoopExit :=
  match raised with
  | none =>
      { socketsClosed := true, suppressed := true, loggedAsError := false }
  | some .keyboardInterrupt =>
      { socketsClosed := true, suppressed := true, loggedAsError := false }
  | some .zmqError =>
      { socketsClosed := true, suppressed := false, loggedAsError := false }

/-- How `_subscriber_worker` (broker_threaded.py lines 89-103) leaves its
`try/except zmq.ZMQError/finally`: `zmq.ZMQError` is caught, and logged at
error level only when the `_running` flag still holds (`if _running:
logger.error(...)`); the `finally` block closes the worker's SUB and PUSH
sockets in every case.  `KeyboardInterrupt` is not caught there. -/
def subscriber_worker_exit (running : Bool) (raised : Option PyExn) :
    LoopExit :=
  match raised with
  | none =>
      { socketsClosed := true, suppressed := true, loggedAsError := false }
  | some .zmqError =>
      { socketsClosed := true, suppressed := true, loggedAsError := running }
  | some .keyboardInterrupt =>
      { socketsClosed := true, suppressed := false, loggedAsError := false }

/-- How `_collector_worker` (broker_threaded.py lines 127-146) leaves its
`try/except zmq.ZMQError/finally`: same structure as the subscriber
worker, closing the PULL and PUB sockets in its `finally` block. -/
def collector_worker_exit (running : Bool) (raised : Option PyExn) :
    LoopExit :=
  match raised with
  | none =>
      { socketsClosed := true, suppressed := true, loggedAsError := false }
  | some .zmqError =>
      { socketsClosed := true, suppressed := true, loggedAsError := running }
  | some .keyboardInterrupt =>
      { socketsClosed := true, suppressed := false, loggedAsError := false }

/-! ## Worker runs with in-loop transport errors (failure isolation) -/

/-- One iteration's outcome inside `_subscriber_worker`'s loop: the poll
timed out, a frame was received, or a `zmq.ZMQError` was raised by the
socket operation. -/
inductive WorkerEvent
  | timeout
  | msg (m : Frame)
  | err
  deriving Repr, DecidableEq

/-- The state `_subscriber_worker` leaves behind: frames pushed into the
collector queue (in push order), whether its `finally` block closed `sub`
and `push`, and whether a `zmq.ZMQError` was logged at error level. -/
structure WorkerResult where
  forwarded : List Frame
  subClosed : Bool
  pushClosed : Bool
  loggedError : Bool
  deriving Repr, DecidableEq

/-- `_subscriber_worker` run over a sequence of iteration outcomes, with
`running` the (constant) value of `_running` observed when an error is
handled.  A `zmq.ZMQError` leaves the loop through the `except` clause
(logged at error level iff `running`), after which the `finally` block
closes both sockets; the function then returns, terminating only this
worker's thread.  Exhausting the events is a normal loop exit (the flag
observed false), also running the `finally` block. -/
def subscriber_worker_run (running : Bool) :
    List WorkerEvent → WorkerResult
  | [] =>
      { forwarded := [], subClosed := true, pushClosed := true
        loggedError := false }
  | .timeout :: evs => subscriber_worker_run running evs
  | .msg m :: evs =>
      let r := subscriber_worker_run running evs
      { forwarded := m :: r.forwarded, subClosed := r.subClosed
        pushClosed := r.pushClosed, loggedError := r.loggedError }
  | .err :: _ =>
      { forwarded := [], subClosed := true, pushClosed := true
        loggedError := running }

/-! ## The shutdown signal handlers -/

/-- The module-level mutable state of `pc1/broker.py` /
`pc1/broker_threaded.py` as seen by the signal handlers: the `_running`
flag plus everything else (`other`, abstract: loggers, counters, sockets
— the handler never touches it). -/
structure BrokerGlobals (α : Type) where
  running : Bool
  other : α
  deriving DecidableEq

/-- `_signal_handler(sig, frame)` from `pc1/broker.py` (lines 42-45):
logs a message and sets `global _running; _running = False`. -/
def broker_signal_handler {α : Type} (g : BrokerGlobals α) :
    BrokerGlobals α :=
  { g with running := false }

/-- `_signal_handler(sig, frame)` from `pc1/broker_threaded.py` (lines
48-51): logs a message and sets `global _running; _running = False`. -/
def broker_threaded_signal_handler {α : Type} (g : BrokerGlobals α) :
    BrokerGlobals α :=
  { g with running := false }

/-! ## Helper lemmas -/

/-- After one poll-loop iteration, each subscription's queue has lost
exactly its head frame (queues already empty stay empty). -/
theorem std_iteration_fst (base : Nat) (qs : List (List Frame)) :
    (std_iteration base qs).1 = qs.map List.tail := by
  induction qs generalizing base with
  | nil => rfl
  | cons q qs ih => cases q <;> simp [std_iteration, ih]

/-- Every frame forwarded by one iteration is tagged with a subscription
index at least `base`. -/
theorem std_iteration_tags (base : Nat) (qs : List (List Frame)) :
    ∀ p ∈ (std_iteration base qs).2, base ≤ p.1 := by
  induction qs generalizing base with
  | nil => intro p hp; simp [std_iteration] at hp
  | cons q qs ih =>
    intro p hp
    cases q with
    | nil =>
      simp only [std_iteration] at hp
      have := ih (base + 1) p hp
      omega
    | cons m rest =>
      simp only [std_iteration, List.mem_cons] at hp
      rcases hp with h | h
      · subst h; exact Nat.le_refl base
      · have := ih (base + 1) p h
        omega

/-- The frames one iteration forwards from subscription `base + i` are
exactly the head (if any) of that subscription's queue. -/
theorem std_iteration_filter (base i : Nat) (qs : List (List Frame)) :
    ((std_iteration base qs).2.filter (fun p => p.1 == base + i)).map
        Prod.snd
      = ((qs.getD i []).head?).toList := by
  induction qs generalizing base i with
  | nil => simp [std_iteration]
  | cons q qs ih =>
    have tagsHigh : ∀ p ∈ (std_iteration (base + 1) qs).2, base + 1 ≤ p.1 :=
      std_iteration_tags (base + 1) qs
    cases i with
    | zero =>
      have hnil :
          (std_iteration (base + 1) qs).2.filter
            (fun p => p.1 == base) = [] := by
        rw [List.filter_eq_nil_iff]
        intro p hp
        have := tagsHigh p hp
        simp only [beq_iff_eq]
        omega
      cases q with
      | nil => simp [std_iteration, hnil]
      | cons m rest => simp [std_iteration, List.filter_cons, hnil]
    | succ i =>
      have hne : (base == base + (i + 1)) = false := by
        simp only [beq_eq_false_iff_ne]
        omega
      have hrec := ih (base + 1) i
      have harith : base + 1 + i = base + (i + 1) := by omega
      rw [harith] at hrec
      cases q with
      | nil =>
        simp only [std_iteration]
        simpa using hrec
      | cons m rest =>
        simp only [std_iteration]
        rw [List.filter_cons]
        simp only [hne]
        simpa using hrec

/-- `getD` after taking the tail of every queue. -/
theorem getD_map_tail (l : List (List Frame)) (i : Nat) :
    (l.map List.tail).getD i [] = (l.getD i []).tail := by
  induction l generalizing i with
  | nil => cases i <;> rfl
  | cons x l ih => cases i with
    | zero => rfl
    | succ i => simpa [List.getD] using ih i

/-- Peeling one frame off the front of a `take`. -/
theorem head_toList_append_tail_take (l : List Frame) (f : Nat) :
    l.head?.toList ++ l.tail.take f = l.take (f + 1) := by
  cases l <;> simp

/-- Running the single-threaded poll loop for `f` iterations forwards, from
subscription `i`, exactly the first `f` frames of that subscription's
queue, in order. -/
theorem run_std_filter (f : Nat) (pending : List (List Frame)) (i : Nat) :
    ((run_broker_standard_loop (List.replicate f true) pending).filter
        (fun p => p.1 == i)).map Prod.snd
      = (pending.getD i []).take f := by
  induction f generalizing pending with
  | zero => simp [run_broker_standard_loop]
  | succ f ih =>
    rw [List.replicate_succ]
    simp only [run_broker_standard_loop]
    rw [List.filter_append, List.map_append, std_iteration_fst]
    have hstep := std_iteration_filter 0 i pending
    simp only [Nat.zero_add] at hstep
    rw [hstep, ih (pending.map List.tail), getD_map_tail,
      head_toList_append_tail_take]

/-- Ticks after the first `false` observation of `_running` contribute
nothing to the single-threaded loop's output. -/
theorem run_std_trunc (f1 f2 : List Bool) (pending : List (List Frame)) :
    run_broker_standard_loop (f1 ++ false :: f2) pending
      = run_broker_standard_loop f1 pending := by
  induction f1 generalizing pending with
  | nil => rfl
  | cons b f1 ih => cases b <;> simp [run_broker_standard_loop, ih]

/-- No poll happens after the flag is observed false. -/
theorem run_std_polls_trunc (f1 f2 : List Bool) :
    run_broker_standard_polls (f1 ++ false :: f2)
      = run_broker_standard_polls f1 := by
  induction f1 with
  | nil => rfl
  | cons b f1 ih => cases b <;> simp [run_broker_standard_polls, ih]

/-- Ticks after the first `false` observation of `_running` contribute
nothing to the subscriber worker's output. -/
theorem subscriber_loop_trunc (t1 t2 : List (Bool × Option Frame))
    (x : Option Frame) :
    subscriber_worker_loop (t1 ++ (false, x) :: t2)
      = subscriber_worker_loop t1 := by
  induction t1 with
  | nil => rfl
  | cons t ts ih =>
    obtain ⟨b, o⟩ := t
    cases b <;> cases o <;> simp [subscriber_worker_loop, ih]

/-- Ticks after the first `false` observation of `_running` contribute
nothing to the collector's output. -/
theorem collector_loop_trunc (u1 u2 : List (Bool × Option (Nat × Frame)))
    (y : Option (Nat × Frame)) :
    collector_loop (u1 ++ (false, y) :: u2) = collector_loop u1 := by
  induction u1 with
  | nil => rfl
  | cons u us ih =>
    obtain ⟨b, o⟩ := u
    cases b <;> cases o <;> simp [collector_loop, ih]

/-- While `_running` holds, the subscriber worker pushes exactly the frames
its poll calls delivered, in receipt order. -/
theorem subscriber_loop_all_true (polls : List (Option Frame)) :
    subscriber_worker_loop (polls.map fun o => (true, o))
      = polls.filterMap id := by
  induction polls with
  | nil => rfl
  | cons o polls ih => cases o <;> simp [subscriber_worker_loop, ih]

/-- While `_running` holds, the collector publishes exactly the frames its
poll calls dequeued, in dequeue order. -/
theorem collector_loop_all_true (polls : List (Option (Nat × Frame))) :
    collector_loop (polls.map fun o => (true, o)) = polls.filterMap id := by
  induction polls with
  | nil => rfl
  | cons o polls ih => cases o <;> simp [collector_loop, ih]

/-- The subscriber worker's `finally` block always closes both of its
sockets, on normal exit and on error alike. -/
theorem subscriber_worker_run_closes (running : Bool)
    (evs : List WorkerEvent) :
    (subscriber_worker_run running evs).subClosed = true
    ∧ (subscriber_worker_run running evs).pushClosed = true := by
  induction evs with
  | nil => exact ⟨rfl, rfl⟩
  | cons e evs ih => cases e <;> simp [subscriber_worker_run, ih.1, ih.2]

/-- If a transport error occurs while running, the worker logs it at error
level. -/
theorem subscriber_worker_run_logs (running : Bool) (evs : List WorkerEvent)
    (h : WorkerEvent.err ∈ evs) :
    (subscriber_worker_run running evs).loggedError = running := by
  induction evs with
  | nil => cases h
  | cons e evs ih =>
    cases e with
    | timeout =>
      rw [List.mem_cons] at h
      rcases h with h | h
      · cases h
      · simpa [subscriber_worker_run] using ih h
    | msg m =>
      rw [List.mem_cons] at h
      rcases h with h | h
      · cases h
      · simpa [subscriber_worker_run] using ih h
    | err => rfl

/-- Generic byte-identity of a receive/send trace run: the single-threaded
forward step sends exactly what it received. -/
theorem std_forward_run_verbatim (t : RelayTrace) (ms : List Frame)
    (h : t.forwarded = t.received) :
    (std_forward_run t ms).forwarded = (std_forward_run t ms).received := by
  induction ms generalizing t with
  | nil => exact h
  | cons m ms ih => exact ih _ (by simp [std_forward_step, h])

/-- Byte-identity for the worker's receive/push step. -/
theorem worker_forward_run_verbatim (t : RelayTrace) (ms : List Frame)
    (h : t.forwarded = t.received) :
    (worker_forward_run t ms).forwarded
      = (worker_forward_run t ms).received := by
  induction ms generalizing t with
  | nil => exact h
  | cons m ms ih => exact ih _ (by simp [worker_forward_step, h])

/-- Byte-identity for the collector's pull/publish step. -/
theorem collector_forward_run_verbatim (t : RelayTrace) (ms : List Frame)
    (h : t.forwarded = t.received) :
    (collector_forward_run t ms).forwarded
      = (collector_forward_run t ms).received := by
  induction ms generalizing t with
  | nil => exact h
  | cons m ms ih => exact ih _ (by simp [collector_forward_step, h])

/-! ## Claim theorems -/

/-- C1: every frame forwarded downstream is byte-identical to the frame
received.  In all three forwarding sites — the single-threaded relay's
poll-loop body (`run_broker_standard`), the worker's receive-to-queue push
(`_subscriber_worker`), and the collector's dequeue-to-publish
(`_collector_worker`) — the sequence of frames handed to `send_string` is
exactly the sequence of frames returned by `recv_string`: no re-encoding
and no topic re-mapping (the topic extraction feeds only the log). -/
theorem broker_forwards_frames_verbatim (ms1 ms2 ms3 : List Frame) :
    (std_forward_run RelayTrace.empty ms1).forwarded
        = (std_forward_run RelayTrace.empty ms1).received
    ∧ (worker_forward_run RelayTrace.empty ms2).forwarded
        = (worker_forward_run RelayTrace.empty ms2).received
    ∧ (collector_forward_run RelayTrace.empty ms3).forwarded
        = (collector_forward_run RelayTrace.empty ms3).received :=
  ⟨std_forward_run_verbatim RelayTrace.empty ms1 rfl,
   worker_forward_run_verbatim RelayTrace.empty ms2 rfl,
   collector_forward_run_verbatim RelayTrace.empty ms3 rfl⟩

/-- C2: per-source ordering is preserved end-to-end in both variants.
Single-threaded: running the poll loop for `f` iterations forwards, from
subscription `i`, exactly the first `f` frames of that subscription's
queue, in the order the producer sent them.  Multi-threaded: the worker
pushes its frames in receipt order (`subscriber_worker_loop`), and given
the PUSH/PULL queue's per-producer FIFO guarantee (`hfifo`: the dequeue
sequence restricted to worker `j` equals what worker `j` pushed), the
frames the collector publishes from worker `j` are exactly that worker's
received frames in receipt order.  Nothing is claimed about interleaving
across sources. -/
theorem broker_per_source_order (f : Nat) (pending : List (List Frame))
    (i : Nat) (workerPolls : List (Option Frame))
    (collectorPolls : List (Option (Nat × Frame))) (j : Nat)
    (hfifo : ((collectorPolls.filterMap id).filter
          (fun p => p.1 == j)).map Prod.snd
        = subscriber_worker_loop (workerPolls.map fun o => (true, o))) :
    ((run_broker_standard_loop (List.replicate f true) pending).filter
        (fun p => p.1 == i)).map Prod.snd
      = (pending.getD i []).take f
    ∧ ((collector_loop (collectorPolls.map fun o => (true, o))).filter
        (fun p => p.1 == j)).map Prod.snd
      = workerPolls.filterMap id := by
  refine ⟨run_std_filter f pending i, ?_⟩
  rw [collector_loop_all_true, hfifo, subscriber_loop_all_true]

/-- Witness for C2 at concrete inputs: two iterations over a queue of
three frames, and a two-producer dequeue sequence. -/
theorem broker_per_source_order_witness :
    ((([some (0, "gps x"), some (1, "camara y"),
          some (0, "gps z")] : List (Option (Nat × Frame))).filterMap
            id).filter (fun p => p.1 == 0)).map Prod.snd
      = subscriber_worker_loop
          (([some "gps x", none, some "gps z"] : List (Option Frame)).map
            fun o => (true, o))
    ∧ (((run_broker_standard_loop (List.replicate 2 true)
          [["gps a", "gps b", "gps c"]]).filter
            (fun p => p.1 == 0)).map Prod.snd
        = ([["gps a", "gps b", "gps c"]].getD 0 []).take 2
      ∧ ((collector_loop
            (([some (0, "gps x"), some (1, "camara y"),
                some (0, "gps z")] : List (Option (Nat × Frame))).map
              fun o => (true, o))).filter
          (fun p => p.1 == 0)).map Prod.snd
        = ([some "gps x", none, some "gps z"] :
            List (Option Frame)).filterMap id) :=
  ⟨by decide,
   broker_per_source_order 2 [["gps a", "gps b", "gps c"]] 0
     [some "gps x", none, some "gps z"]
     [some (0, "gps x"), some (1, "camara y"), some (0, "gps z")] 0
     (by decide)⟩

/-- C3 counterexample: a subscription that is ready with TWO pending
frames.  One poll-loop iteration of `run_broker_standard` receives only
one of them (`recv_string` is called once per ready socket per
iteration), so the subscription still holds a pending frame when the loop
re-polls — the iteration does not drain the ready subscription fully. -/
theorem std_iteration_not_full_drain :
    (std_iteration 0 [["camara a", "camara b"]]).1 = [["camara b"]]
    ∧ (std_iteration 0 [["camara a", "camara b"]]).2 = [(0, "camara a")]
    ∧ ¬ (std_iteration 0 [["camara a", "camara b"]]).1 = [[]] := by
  refine ⟨rfl, rfl, ?_⟩
  decide

/-- C3 (amended): each poll-loop iteration of the single-threaded relay
receives exactly ONE frame from each ready subscription — the head of its
queue — before re-polling, rather than draining every ready subscription
fully; every ready subscription is served once per iteration, so a busy
source cannot monopolize an iteration and no ready source is skipped. -/
theorem std_iteration_one_frame_per_ready (pending : List (List Frame))
    (i : Nat) :
    (std_iteration 0 pending).1 = pending.map List.tail
    ∧ ((std_iteration 0 pending).2.filter (fun p => p.1 == i)).map Prod.snd
        = ((pending.getD i []).head?).toList := by
  refine ⟨std_iteration_fst 0 pending, ?_⟩
  have h := std_iteration_filter 0 i pending
  simpa using h

/-- C4 counterexample: in the single-threaded relay, a `zmq.ZMQError`
raised inside the loop is NOT suppressed — `run_broker_standard` catches
only `KeyboardInterrupt`, so the transport error escapes the function
(reported as a failure to the caller), shutdown in progress or not. -/
theorem standard_broker_error_not_suppressed :
    ¬ (run_broker_standard_exit (some PyExn.zmqError)).suppressed = true := by
  decide

/-- C4 (amended): in the multi-threaded relay, a transport error raised
while shutdown is already in progress (`_running` false) is suppressed by
both the worker and the collector — caught, not logged as an error — and
their `finally` blocks still close their sockets; in the single-threaded
relay only `KeyboardInterrupt` is suppressed, while a transport error
propagates out of `run_broker_standard`, its `finally` block still closing
all sockets first. -/
theorem broker_shutdown_error_handling :
    subscriber_worker_exit false (some PyExn.zmqError)
        = { socketsClosed := true, suppressed := true, loggedAsError := false }
    ∧ collector_worker_exit false (some PyExn.zmqError)
        = { socketsClosed := true, suppressed := true, loggedAsError := false }
    ∧ run_broker_standard_exit (some PyExn.zmqError)
        = { socketsClosed := true, suppressed := false, loggedAsError := false }
    ∧ run_broker_standard_exit (some PyExn.keyboardInterrupt)
        = { socketsClosed := true, suppressed := true, loggedAsError := false } := by
  decide

/-- C5: a transport error on one worker's subscription is logged and
terminates only that worker.  The failing worker (`evsErr`, whose event
sequence contains a `zmq.ZMQError`) logs the error and its `finally` block
closes its SUB and PUSH sockets; a healthy worker's behaviour is a
function of its own events alone, and — given the queue's per-producer
FIFO guarantee `hfifo` — all frames the healthy worker `j` forwarded still
reach the downstream endpoint through the collector. -/
theorem worker_failure_isolated (evsErr evsOk : List WorkerEvent)
    (collectorPolls : List (Option (Nat × Frame))) (j : Nat)
    (herr : WorkerEvent.err ∈ evsErr)
    (hfifo : ((collectorPolls.filterMap id).filter
          (fun p => p.1 == j)).map Prod.snd
        = (subscriber_worker_run true evsOk).forwarded) :
    (subscriber_worker_run true evsErr).loggedError = true
    ∧ (subscriber_worker_run true evsErr).subClosed = true
    ∧ (subscriber_worker_run true evsErr).pushClosed = true
    ∧ ((collector_loop (collectorPolls.map fun o => (true, o))).filter
        (fun p => p.1 == j)).map Prod.snd
      = (subscriber_worker_run true evsOk).forwarded := by
  refine ⟨?_, (subscriber_worker_run_closes true evsErr).1,
    (subscriber_worker_run_closes true evsErr).2, ?_⟩
  · exact subscriber_worker_run_logs true evsErr herr
  · rw [collector_loop_all_true]
    exact hfifo

/-- Witness for C5 at concrete inputs: worker 0 receives one frame then
hits a transport error; worker 1 forwards one frame which reaches the
collector. -/
theorem worker_failure_isolated_witness :
    (WorkerEvent.err ∈ [WorkerEvent.msg "gps a", WorkerEvent.err]
      ∧ ((([some (0, "gps a"), some (1, "camara b")] :
            List (Option (Nat × Frame))).filterMap id).filter
          (fun p => p.1 == 1)).map Prod.snd
        = (subscriber_worker_run true [WorkerEvent.msg "camara b"]).forwarded)
    ∧ ((subscriber_worker_run true
          [WorkerEvent.msg "gps a", WorkerEvent.err]).loggedError = true
      ∧ (subscriber_worker_run true
          [WorkerEvent.msg "gps a", WorkerEvent.err]).subClosed = true
      ∧ (subscriber_worker_run true
          [WorkerEvent.msg "gps a", WorkerEvent.err]).pushClosed = true
      ∧ ((collector_loop
            (([some (0, "gps a"), some (1, "camara b")] :
                List (Option (Nat × Frame))).map
              fun o => (true, o))).filter (fun p => p.1 == 1)).map Prod.snd
        = (subscriber_worker_run true [WorkerEvent.msg "camara b"]).forwarded) :=
  ⟨⟨by decide, by decide⟩,
   worker_failure_isolated [WorkerEvent.msg "gps a", WorkerEvent.err]
     [WorkerEvent.msg "camara b"]
     [some (0, "gps a"), some (1, "camara b")] 1 (by decide) (by decide)⟩

/-- C6: the request-stop operation is idempotent.  Both signal handlers
set the `_running` flag to false; applying a handler any positive number
of times yields the same global state as applying it once, the flag is
false afterwards, and no module state other than the flag is mutated. -/
theorem signal_handler_idempotent {α : Type} (g : BrokerGlobals α)
    (n : Nat) :
    broker_signal_handler^[n + 1] g = broker_signal_handler g
    ∧ (broker_signal_handler g).running = false
    ∧ (broker_signal_handler g).other = g.other
    ∧ broker_threaded_signal_handler^[n + 1] g
        = broker_threaded_signal_handler g
    ∧ (broker_threaded_signal_handler g).running = false
    ∧ (broker_threaded_signal_handler g).other = g.other := by
  refine ⟨?_, rfl, rfl, ?_, rfl, rfl⟩
  · induction n with
    | zero => rfl
    | succ n ih => rw [Function.iterate_succ_apply', ih]; rfl
  · induction n with
    | zero => rfl
    | succ n ih => rw [Function.iterate_succ_apply', ih]; rfl

/-- C7: every blocking wait in the three loops is the bounded
`poll(timeout=1000)` call, issued only after re-checking `_running` at the
top of the iteration.  Consequently, once the flag is observed false, each
loop performs no further poll and forwards no further frame: everything
after the first `false` observation contributes nothing to the loop's
output or to its poll count, so each loop exits within the current
poll-timeout interval. -/
theorem broker_bounded_waits (f1 f2 : List Bool)
    (pending : List (List Frame)) (t1 t2 : List (Bool × Option Frame))
    (x : Option Frame) (u1 u2 : List (Bool × Option (Nat × Frame)))
    (y : Option (Nat × Frame)) :
    STD_POLL_TIMEOUT_MS = 1000
    ∧ WORKER_POLL_TIMEOUT_MS = 1000
    ∧ COLLECTOR_POLL_TIMEOUT_MS = 1000
    ∧ run_broker_standard_loop (f1 ++ false :: f2) pending
        = run_broker_standard_loop f1 pending
    ∧ run_broker_standard_polls (f1 ++ false :: f2)
        = run_broker_standard_polls f1
    ∧ subscriber_worker_loop (t1 ++ (false, x) :: t2)
        = subscriber_worker_loop t1
    ∧ collector_loop (u1 ++ (false, y) :: u2) = collector_loop u1 :=
  ⟨rfl, rfl, rfl, run_std_trunc f1 f2 pending, run_std_polls_trunc f1 f2,
   subscriber_loop_trunc t1 t2 x, collector_loop_trunc u1 u2 y⟩

/-- C8: after construction, `nivel_congestion` always equals
`get_congestion_level(velocidad_promedio)`: the `__post_init__` hook
overwrites whatever value the caller supplied, and `from_dict` goes
through the same constructor, so any event it returns satisfies the same
invariant. -/
theorem gps_event_congestion_invariant
    (sensor_id tipo_sensor interseccion nivel_congestion : String)
    (velocidad_promedio : ℚ) (timestamp now : String) (data : GPSDict)
    (ev : GPSEvent)
    (h : GPSEvent.from_dict now data = some ev) :
    (GPSEvent.init sensor_id tipo_sensor interseccion nivel_congestion
        velocidad_promedio timestamp).nivel_congestion
      = get_congestion_level velocidad_promedio
    ∧ ev.nivel_congestion = get_congestion_level ev.velocidad_promedio := by
  constructor
  · rfl
  · unfold GPSEvent.from_dict at h
    cases hd : data.sensor_id with
    | none => rw [hd] at h; cases h
    | some sid => rw [hd] at h; cases h; rfl

/-- Witness for C8 at a concrete input: a dict supplying the (wrong)
congestion label `"BAJA"` together with speed 5 produces an event whose
level was recomputed from the speed. -/
theorem gps_event_congestion_invariant_witness :
    GPSEvent.from_dict "T0"
        ⟨some "gps-1", none, none, some "BAJA", some 5, none⟩
      = some (GPSEvent.init "gps-1" "gps" "" "BAJA" 5 "T0")
    ∧ ((GPSEvent.init "s" "gps" "INT-A1" "NORMAL" 50 "T1").nivel_congestion
        = get_congestion_level 50
      ∧ (GPSEvent.init "gps-1" "gps" "" "BAJA" 5 "T0").nivel_congestion
        = get_congestion_level
            (GPSEvent.init "gps-1" "gps" "" "BAJA" 5 "T0").velocidad_promedio) :=
  ⟨rfl,
   gps_event_congestion_invariant "s" "gps" "INT-A1" "NORMAL" 50 "T1" "T0"
     ⟨some "gps-1", none, none, some "BAJA", some 5, none⟩
     (GPSEvent.init "gps-1" "gps" "" "BAJA" 5 "T0") rfl⟩

/-- C9: `get_congestion_level` is total and always returns exactly one of
`ALTA`, `NORMAL`, `BAJA`; every speed with `10 <= v <= 40` yields `NORMAL`
(in particular `v = 10` is not `ALTA` and `v = 40` is not `BAJA`), `v < 10`
yields `ALTA` and `v > 40` yields `BAJA`. -/
theorem get_congestion_level_total (v : ℚ) :
    (get_congestion_level v = CONGESTION_ALTA
      ∨ get_congestion_level v = CONGESTION_NORMAL
      ∨ get_congestion_level v = CONGESTION_BAJA)
    ∧ (10 ≤ v → v ≤ 40 → get_congestion_level v = CONGESTION_NORMAL)
    ∧ (v < 10 → get_congestion_level v = CONGESTION_ALTA)
    ∧ (40 < v → get_congestion_level v = CONGESTION_BAJA) := by
  unfold get_congestion_level CONGESTION_ALTA_MAX_SPEED
    CONGESTION_BAJA_MIN_SPEED
  refine ⟨?_, ?_, ?_, ?_⟩ <;> intros <;> split_ifs <;>
    first | tauto | linarith

/-- Witness for C9 at the boundary speeds 10, 40 and at 5, 41. -/
theorem get_congestion_level_total_witness :
    ((10 : ℚ) ≤ 10 ∧ (10 : ℚ) ≤ 40 ∧ (40 : ℚ) ≤ 40 ∧ (5 : ℚ) < 10
      ∧ (40 : ℚ) < 41)
    ∧ (get_congestion_level 10 = CONGESTION_NORMAL
      ∧ get_congestion_level 40 = CONGESTION_NORMAL
      ∧ get_congestion_level 5 = CONGESTION_ALTA
      ∧ get_congestion_level 41 = CONGESTION_BAJA) :=
  ⟨⟨by norm_num, by norm_num, by norm_num, by norm_num, by norm_num⟩,
   ⟨(get_congestion_level_total 10).2.1 (by norm_num) (by norm_num),
    (get_congestion_level_total 40).2.1 (by norm_num) (by norm_num),
    (get_congestion_level_total 5).2.2.1 (by norm_num),
    (get_congestion_level_total 41).2.2.2 (by norm_num)⟩⟩

/-- C10: `get_config` caches its result.  The first call (global unset)
loads the configuration from the given path and stores it; any later call
returns the stored instance and ignores its `config_path` argument, so a
second call with a different path still returns the object loaded from
the first path. -/
theorem get_config_caches {α : Type} (fs : String → α) (p1 p2 : String)
    (c : CityConfig α) :
    (get_config fs none p1).1 = CityConfig.init fs p1
    ∧ (get_config fs (get_config fs none p1).2 p2).1 = CityConfig.init fs p1
    ∧ (get_config fs (some c) p2).1 = c :=
  ⟨rfl, rfl, rfl⟩
